import Mathlib

/-!
Verification development for the `saturday` repository (Go): a
voice-to-ambiance controller whose core is an OAuth2 session manager
(`spotify/spotify.go`), a lighting client with bounded retry
(`hue/hue.go`), and a top-level orchestrator (`main.go`).

The Go code is shallowly embedded: every outcome of an external
interaction (HTTP response, file content, listener bind, browser
callback) is passed in explicitly, and the embedded functions mirror the
Go control flow line by line.  Go `encoding/json` decoding into the
`Token` struct is modelled by a small JSON value type together with the
decoder semantics Go gives it: unknown object fields are ignored, a
missing field or a JSON null leaves the zero value, and a type-mismatched
field is a decode error.
-/

namespace Saturday

/-- A JSON value, as far as the token decoder is concerned.  Numbers are
restricted to integer literals because Go rejects a fractional literal for
the `int` field `expires_in` anyway. -/
inductive Json where
  | null : Json
  | bool (b : Bool) : Json
  | num (n : Int) : Json
  | str (s : String) : Json
  | arr (elems : List Json) : Json
  | obj (fields : List (String × Json)) : Json

/-- Go decodes object keys in order, a later duplicate key overwriting an
earlier one, so field lookup takes the last binding of the key. -/
def getField (fields : List (String × Json)) (key : String) : Option Json :=
  fields.foldl (fun acc kv => if kv.1 = key then some kv.2 else acc) none

/-- Decoding a string-typed struct field: absent or null leaves the zero
value `""`, a JSON string is taken as is, anything else is a decode
error. -/
def getStr (fields : List (String × Json)) (key : String) : Option String :=
  match getField fields key with
  | none => some ""
  | some .null => some ""
  | some (.str s) => some s
  | some _ => none

/-- Decoding an int-typed struct field: absent or null leaves the zero
value `0`, an integer literal is taken as is, anything else is a decode
error. -/
def getInt (fields : List (String × Json)) (key : String) : Option Int :=
  match getField fields key with
  | none => some 0
  | some .null => some 0
  | some (.num n) => some n
  | some _ => none

/-- `spotify.Token` (spotify.go lines 26 to 32): the five-field token
record, with the JSON tags access_token, refresh_token, expires_in,
token_type, scope. -/
structure Token where
  AccessToken : String
  RefreshToken : String
  ExpiresIn : Int
  TokenType : String
  Scope : String
deriving DecidableEq, Repr

/-- Go `json.Decode` of a body into a `Token` struct: the top level must
be a JSON object, each tagged field is read with Go zero-value defaults,
and unknown fields are ignored. -/
def decodeToken (j : Json) : Option Token :=
  match j with
  | .obj fields =>
    match getStr fields "access_token", getStr fields "refresh_token",
          getInt fields "expires_in", getStr fields "token_type",
          getStr fields "scope" with
    | some a, some r, some e, some t, some s =>
        some { AccessToken := a, RefreshToken := r, ExpiresIn := e,
               TokenType := t, Scope := s }
    | _, _, _, _, _ => none
  | _ => none

/-- Go `json.Encode` of a `Token`: all five fields are emitted (no
omitempty tags). -/
def encodeToken (t : Token) : Json :=
  .obj [("access_token", .str t.AccessToken),
        ("refresh_token", .str t.RefreshToken),
        ("expires_in", .num t.ExpiresIn),
        ("token_type", .str t.TokenType),
        ("scope", .str t.Scope)]

/-- Raw bytes that may or may not parse as JSON: a file content or an
HTTP response body. -/
inductive Data where
  | invalid : Data
  | json (j : Json) : Data

/-- Errors of `LoadToken`: the `os.Open` error when the file is absent or
unreadable, or the `json.Decode` error. -/
inductive LoadErr where
  | notFound : LoadErr
  | decodeFailed : LoadErr
deriving DecidableEq, Repr

/-- `spotify.LoadToken` (spotify.go lines 144 to 157).  The file state is
`none` when `os.Open` fails, otherwise the file content.  The decoded
token is returned as is: the function performs no validation of the
decoded fields. -/
def LoadToken (file : Option Data) : Except LoadErr Token :=
  match file with
  | none => .error .notFound
  | some .invalid => .error .decodeFailed
  | some (.json j) =>
    match decodeToken j with
    | none => .error .decodeFailed
    | some t => .ok t

/-- `spotify.SaveToken` (spotify.go lines 134 to 142) on the success
path: the file content after the save is the JSON encoding of the
token. -/
def SaveToken (t : Token) : Data :=
  .json (encodeToken t)

/-- Errors of `RefreshAccessToken` and of `exchangeCodeForToken`: the
transport error from `http.DefaultClient.Do` or the `json.Decode`
error.  The HTTP status code is never consulted by either function. -/
inductive RefreshErr where
  | network : RefreshErr
  | decodeFailed : RefreshErr
deriving DecidableEq, Repr

/-- `(*Client).RefreshAccessToken` (spotify.go lines 159 to 188).  The
provider response is `none` on a transport error, otherwise the body.
The status code is not inspected; whatever body arrives is decoded as a
`Token`, and when the decoded refresh_token is empty it is backfilled
with the input refresh token. -/
def RefreshAccessToken (refreshToken : String) (resp : Option Data) :
    Except RefreshErr Token :=
  match resp with
  | none => .error .network
  | some .invalid => .error .decodeFailed
  | some (.json j) =>
    match decodeToken j with
    | none => .error .decodeFailed
    | some t =>
      if t.RefreshToken = "" then
        .ok { t with RefreshToken := refreshToken }
      else
        .ok t

/-- The components of a parsed URL that the listener setup reads:
`u.Host` (host with the port when present) and `u.Path`. -/
structure URLParts where
  host : String
  path : String
deriving DecidableEq, Repr

/-- `getHostPort` (spotify.go lines 118 to 124).  `url.Parse` is the Go
standard library; its outcome is passed in as `parse`, with `none` for a
parse error. -/
def getHostPort (parse : String → Option URLParts) (redirectURI : String) :
    String :=
  match parse redirectURI with
  | none => "127.0.0.1:8888"
  | some u => u.host

/-- `getPath` (spotify.go lines 126 to 132). -/
def getPath (parse : String → Option URLParts) (redirectURI : String) :
    String :=
  match parse redirectURI with
  | none => "/callback"
  | some u => u.path

/-- `spotify.Client` (spotify.go lines 18 to 24). -/
structure Client where
  ClientID : String
  ClientSecret : String
  RedirectURI : String
  Scopes : List String
  State : String
deriving DecidableEq, Repr

/-- One inbound request to the redirect listener, reduced to the two
query parameters the handler reads; `r.URL.Query().Get` yields `""` for
an absent parameter. -/
structure CallbackRequest where
  state : String
  code : String
deriving DecidableEq, Repr

/-- What the callback handler closure (spotify.go lines 48 to 60) does
with one request: the HTTP status and body written, the value sent on
`codeCh` (`none` when nothing is sent), and whether the delayed
`server.Shutdown` goroutine was spawned. -/
structure HandlerOutcome where
  status : Nat
  body : String
  sentCode : Option String
  shutdownScheduled : Bool
deriving DecidableEq, Repr

/-- The handler closure registered by `AuthCode`: a state mismatch gets
`http.Error(w, "state mismatch", 400)` and an early return; a match
writes the success page (implicit status 200), sends the `code` query
parameter on the channel, and schedules the listener shutdown. -/
def callbackHandler (expectedState : String) (r : CallbackRequest) :
    HandlerOutcome :=
  if r.state ≠ expectedState then
    { status := 400, body := "state mismatch",
      sentCode := none, shutdownScheduled := false }
  else
    { status := 200,
      body := "Authorization successful! You can close this tab.",
      sentCode := some r.code, shutdownScheduled := true }

/-- The value received from `codeCh`: the code sent by the first inbound
request that the handler resolves, `none` when no request ever
resolves. -/
def firstResolvedCode (expectedState : String) :
    List CallbackRequest → Option String
  | [] => none
  | r :: rs =>
    match (callbackHandler expectedState r).sentCode with
    | some code => some code
    | none => firstResolvedCode expectedState rs

/-- `exchangeCodeForToken` (spotify.go lines 90 to 112): transport error
or decode error, otherwise the decoded token, returned without any
backfill and without inspecting the status code. -/
def exchangeCodeForToken (code : String) (resp : Option Data) :
    Except RefreshErr Token :=
  match resp with
  | none => .error .network
  | some .invalid => .error .decodeFailed
  | some (.json j) =>
    match decodeToken j with
    | none => .error .decodeFailed
    | some t => .ok t

/-- The external world of one `AuthCode` call: whether `net.Listen`
succeeds, the inbound callback requests in arrival order, and the token
endpoint response to the code exchange. -/
structure AuthEnv where
  bindOk : Bool
  callbacks : List CallbackRequest
  exchangeResp : Option Data

deriving instance DecidableEq for Except

/-- The observable outcome of `AuthCode`: either the call blocks forever
on `code := <-codeCh` (nothing ever sends on the channel), or it reaches
the code exchange and returns its result. -/
inductive AuthOutcome where
  | blocked : AuthOutcome
  | result (r : Except RefreshErr Token) : AuthOutcome
deriving DecidableEq, Repr

/-- Whether an `AuthCode` call blocks forever instead of returning. -/
def AuthOutcome.isBlocked : AuthOutcome → Bool
  | .blocked => true
  | .result _ => false

/-- `(*Client).AuthCode` (spotify.go lines 44 to 77).  When `net.Listen`
fails the serving goroutine returns silently, so no handler ever runs,
nothing is sent on `codeCh`, and the receive blocks forever.  When the
bind succeeds, the first request whose state matches resolves the wait
with its code, which is then exchanged for a token; if no such request
ever arrives the receive blocks forever. -/
def AuthCode (c : Client) (env : AuthEnv) : AuthOutcome :=
  if env.bindOk = false then
    .blocked
  else
    match firstResolvedCode c.State env.callbacks with
    | none => .blocked
    | some code => .result (exchangeCodeForToken code env.exchangeResp)

/-- The externally visible calls the orchestrator makes, in order.
`authInteractive` marks the start of `AuthCode` (listener plus
browser). -/
inductive Event where
  | loadToken : Event
  | refreshCall (refreshToken : String) : Event
  | authInteractive : Event
  | saveCall (t : Token) : Event
  | searchCall (query : String) : Event
  | playCall (uri : String) : Event
deriving DecidableEq, Repr

/-- The outcome of the session-acquisition part of `main` (main.go lines
72 to 99), with the trace of calls made: the run blocks inside
`AuthCode`, exits non-zero on an authorization failure, or obtains a
token. -/
inductive FlowOutcome where
  | blocked (events : List Event) : FlowOutcome
  | exited (events : List Event) : FlowOutcome
  | gotToken (t : Token) (events : List Event) : FlowOutcome
deriving DecidableEq, Repr

/-- The trace of a flow outcome. -/
def FlowOutcome.events : FlowOutcome → List Event
  | .blocked es => es
  | .exited es => es
  | .gotToken _ es => es

/-- The external world of one `main` run, session part: the token file
content, the refresh endpoint response, and the `AuthCode`
environment. -/
structure MainEnv where
  tokenFile : Option Data
  refreshResp : Option Data
  authEnv : AuthEnv

/-- Session acquisition in `main` (main.go lines 73 to 99): load the
token file; if that fails, authorize interactively and save; otherwise
refresh with the loaded refresh token, falling back to interactive
authorization only when refresh returns an error, and save the result.
A save failure is only warned about, so it does not appear in the
control flow. -/
def sessionFlow (c : Client) (env : MainEnv) : FlowOutcome :=
  match LoadToken env.tokenFile with
  | .error _ =>
    match AuthCode c env.authEnv with
    | .blocked => .blocked [.loadToken, .authInteractive]
    | .result (.error _) => .exited [.loadToken, .authInteractive]
    | .result (.ok t) =>
      .gotToken t [.loadToken, .authInteractive, .saveCall t]
  | .ok loaded =>
    match RefreshAccessToken loaded.RefreshToken env.refreshResp with
    | .ok t =>
      .gotToken t [.loadToken, .refreshCall loaded.RefreshToken, .saveCall t]
    | .error _ =>
      match AuthCode c env.authEnv with
      | .blocked =>
        .blocked [.loadToken, .refreshCall loaded.RefreshToken,
                  .authInteractive]
      | .result (.error _) =>
        .exited [.loadToken, .refreshCall loaded.RefreshToken,
                 .authInteractive]
      | .result (.ok t) =>
        .gotToken t [.loadToken, .refreshCall loaded.RefreshToken,
                     .authInteractive, .saveCall t]

/-- The outcome of the search-and-play tail of `main` (main.go lines 100
to 121): skipped when both song title and artist are empty, otherwise
the search query used and how far the run got. -/
inductive PlaybackOutcome where
  | skipped : PlaybackOutcome
  | searchFailed (query : String) : PlaybackOutcome
  | playFailed (query uri : String) : PlaybackOutcome
  | played (query uri : String) : PlaybackOutcome
deriving DecidableEq, Repr

/-- The search query of a playback outcome, `none` when no search was
attempted. -/
def PlaybackOutcome.query : PlaybackOutcome → Option String
  | .skipped => none
  | .searchFailed q => some q
  | .playFailed q _ => some q
  | .played q _ => some q

/-- The URI passed to `PlayTrack`, `none` when no play was attempted. -/
def PlaybackOutcome.playedURI : PlaybackOutcome → Option String
  | .skipped => none
  | .searchFailed _ => none
  | .playFailed _ u => some u
  | .played _ u => some u

/-- The search-and-play tail of `main` (main.go lines 100 to 121).
`search` and `play` are the outcomes of `spotify.SearchTrack` and
`spotify.PlayTrack` as a function of their argument.  The branch runs
exactly when song title or artist is non-empty; the query is title and
artist joined by one space when both are non-empty, otherwise whichever
one is. -/
def playbackPhase (songTitle artist : String)
    (search : String → Except Unit String)
    (play : String → Except Unit Unit) : PlaybackOutcome :=
  if songTitle ≠ "" ∨ artist ≠ "" then
    let query :=
      if songTitle ≠ "" ∧ artist ≠ "" then songTitle ++ " " ++ artist
      else if songTitle ≠ "" then songTitle
      else artist
    match search query with
    | .error _ => .searchFailed query
    | .ok uri =>
      match play uri with
      | .error _ => .playFailed query uri
      | .ok _ => .played query uri
  else
    .skipped

end Saturday

namespace Hue

/-- The outcome of one loop iteration of `SetState` (hue.go lines 43 to
64) as seen from outside: `http.NewRequest` failed, the transport
failed, or a response with a status code arrived. -/
inductive AttemptResult where
  | reqErr : AttemptResult
  | doErr : AttemptResult
  | status (code : Nat) : AttemptResult

/-- What one `SetState` run did: how many HTTP requests were performed,
the `time.Sleep` backoff waits in milliseconds in order, and whether the
call returned nil. -/
structure SetStateRun where
  attempts : Nat
  sleeps : List Nat
  ok : Bool
deriving DecidableEq, Repr

/-- The retry loop of `SetState`, one constructor case per branch of the
Go loop body: a request-creation error breaks out at once with no sleep;
a transport error or a non-200 status records the error, sleeps
attempt times 500 ms, and continues; a 200 returns nil immediately.
`fuel` is the number of loop iterations still permitted by the loop
condition. -/
def setStateLoop (resp : Nat → AttemptResult) :
    Nat → Nat → Nat → List Nat → SetStateRun
  | _, 0, attempts, sleeps => ⟨attempts, sleeps, false⟩
  | attempt, fuel + 1, attempts, sleeps =>
    match resp attempt with
    | .reqErr => ⟨attempts, sleeps, false⟩
    | .doErr =>
      setStateLoop resp (attempt + 1) fuel (attempts + 1)
        (sleeps ++ [attempt * 500])
    | .status code =>
      if code ≠ 200 then
        setStateLoop resp (attempt + 1) fuel (attempts + 1)
          (sleeps ++ [attempt * 500])
      else
        ⟨attempts + 1, sleeps, true⟩

/-- `(*Client).SetState` retry behaviour (hue.go lines 41 to 65):
maxRetries is 3 and the loop starts at attempt 1.  URL construction and
payload marshalling precede the loop and cannot fail for the inputs the
program builds (a constant base URL and a marshalable map), so they are
not modelled. -/
def SetState (resp : Nat → AttemptResult) : SetStateRun :=
  setStateLoop resp 1 3 0 []

end Hue

namespace Saturday

/-- The client `main` constructs (main.go line 72), with the config
placeholders of the spec scenario for the two credential fields. -/
def mainClient : Client :=
  { ClientID := "id", ClientSecret := "sec",
    RedirectURI := "http://127.0.0.1:8888/callback",
    Scopes := ["user-read-private", "user-read-email",
               "user-modify-playback-state", "user-read-playback-state"],
    State := "some-random-state" }

/-- A provider denial body: valid JSON carrying only error fields, as an
OAuth token endpoint sends when it rejects a refresh token.  Go decodes
it into a zero-valued `Token`, because unknown object fields are
ignored and every tagged field is missing. -/
def denialBody : Json :=
  .obj [("error", .str "invalid_grant"),
        ("error_description", .str "Refresh token revoked")]

/-- A well-formed persisted token record used as a concrete input. -/
def storedToken : Token :=
  { AccessToken := "A0", RefreshToken := "R0", ExpiresIn := 3600,
    TokenType := "Bearer", Scope := "user-read-private" }

end Saturday

open Saturday

/-- Claim C1: when the refresh response decodes to a token whose
refresh_token is empty (the field was absent) and the input refresh
token is non-empty, the returned token carries the input refresh token,
hence a non-empty one. -/
theorem refresh_backfills_refresh_token (rt : String) (j : Json) (t : Token)
    (hdec : decodeToken j = some t) (hempty : t.RefreshToken = "")
    (hrt : rt ≠ "") :
    ∃ t', RefreshAccessToken rt (some (.json j)) = .ok t' ∧
      t'.RefreshToken = rt ∧ t'.RefreshToken ≠ "" := by
  refine ⟨{ t with RefreshToken := rt }, ?_, rfl, hrt⟩
  simp [RefreshAccessToken, hdec, hempty]

/-- Witness for C1 at a concrete response body that has an access_token
field but no refresh_token field, and the input refresh token R. -/
theorem refresh_backfills_refresh_token_witness :
    ∃ t', RefreshAccessToken "R" (some (.json (.obj [("access_token", .str "A")]))) = .ok t' ∧
      t'.RefreshToken = "R" ∧ t'.RefreshToken ≠ "" :=
  refresh_backfills_refresh_token "R" (.obj [("access_token", .str "A")])
    { AccessToken := "A", RefreshToken := "", ExpiresIn := 0,
      TokenType := "", Scope := "" }
    (by decide) rfl (by decide)

/-- Claim C7: saving a token and loading the saved file yields the same
token, field for field. -/
theorem save_load_round_trip (t : Token) :
    LoadToken (some (SaveToken t)) = .ok t := by
  rfl

/-- Counterexample to claim C3: a record holding only a refresh_token
decodes to a token with an empty access_token, yet LoadToken returns it
rather than failing, and the session flow then trusts it, calling
refresh with its refresh_token instead of re-authorizing. -/
theorem load_accepts_empty_access_token :
    LoadToken (some (.json (.obj [("refresh_token", .str "R0")]))) =
      .ok { AccessToken := "", RefreshToken := "R0", ExpiresIn := 0,
            TokenType := "", Scope := "" } ∧
    (sessionFlow mainClient
      { tokenFile := some (.json (.obj [("refresh_token", .str "R0")])),
        refreshResp := some (.json denialBody),
        authEnv := { bindOk := true, callbacks := [], exchangeResp := none }
      }).events.take 2 = [.loadToken, .refreshCall "R0"] := by
  exact ⟨rfl, rfl⟩

/-- Claim C3 as amended: LoadToken performs no structural validation;
every record that decodes is returned as is, whatever its access_token,
and the session flow then trusts it, immediately calling refresh with
its refresh_token.  Load fails only when the file is absent or its
content does not decode as a token. -/
theorem load_returns_any_decoded_token (c : Client) (env : MainEnv)
    (j : Json) (t : Token) (hdec : decodeToken j = some t)
    (hfile : env.tokenFile = some (.json j)) :
    LoadToken env.tokenFile = .ok t ∧
    (sessionFlow c env).events.take 2 =
      [.loadToken, .refreshCall t.RefreshToken] := by
  have hload : LoadToken env.tokenFile = .ok t := by
    simp [LoadToken, hfile, hdec]
  refine ⟨hload, ?_⟩
  unfold sessionFlow
  rw [hload]
  simp only []
  cases hr : RefreshAccessToken t.RefreshToken env.refreshResp with
  | ok t' => rfl
  | error e =>
    cases AuthCode c env.authEnv with
    | blocked => rfl
    | result r => cases r with
      | ok t' => rfl
      | error e' => rfl

/-- Witness for the amended C3 at a record with an empty access_token:
the flow loads it and refreshes with R0. -/
theorem load_returns_any_decoded_token_witness :
    LoadToken (some (.json (.obj [("refresh_token", .str "R0")]))) =
      .ok { AccessToken := "", RefreshToken := "R0", ExpiresIn := 0,
            TokenType := "", Scope := "" } ∧
    (sessionFlow mainClient
      { tokenFile := some (.json (.obj [("refresh_token", .str "R0")])),
        refreshResp := none,
        authEnv := { bindOk := true, callbacks := [], exchangeResp := none }
      }).events.take 2 = [.loadToken, .refreshCall "R0"] :=
  load_returns_any_decoded_token mainClient
    { tokenFile := some (.json (.obj [("refresh_token", .str "R0")])),
      refreshResp := none,
      authEnv := { bindOk := true, callbacks := [], exchangeResp := none } }
    (.obj [("refresh_token", .str "R0")])
    { AccessToken := "", RefreshToken := "R0", ExpiresIn := 0,
      TokenType := "", Scope := "" }
    (by decide) rfl

/-- Counterexample to claim C2: the provider rejects the refresh token
with the denial body, yet RefreshAccessToken returns a token, not an
error: the denial JSON decodes to a zero token, whose empty
refresh_token is then backfilled.  In the session flow this means no
fall back to interactive authorization: the zero-access token is saved
instead. -/
theorem refresh_denial_returns_token :
    RefreshAccessToken "R0" (some (.json denialBody)) =
      .ok { AccessToken := "", RefreshToken := "R0", ExpiresIn := 0,
            TokenType := "", Scope := "" } ∧
    Event.authInteractive ∉
      (sessionFlow mainClient
        { tokenFile := some (SaveToken storedToken),
          refreshResp := some (.json denialBody),
          authEnv := { bindOk := true, callbacks := [], exchangeResp := none }
        }).events := by
  exact ⟨rfl, by decide⟩

/-- Claim C2 as amended: RefreshAccessToken returns a RefreshError only
on a transport failure or a body that does not decode as a token; a
provider denial delivered as a valid JSON object (such as an
invalid_grant error body) decodes to a zero-valued token and is returned
as success with the refresh_token backfilled, so the session flow saves
that token and never falls back to interactive authorization. -/
theorem refresh_decodable_body_no_fallback (c : Client) (env : MainEnv)
    (t0 : Token) (j : Json) (td : Token)
    (hload : LoadToken env.tokenFile = .ok t0)
    (hresp : env.refreshResp = some (.json j))
    (hdec : decodeToken j = some td) :
    ∃ t', RefreshAccessToken t0.RefreshToken env.refreshResp = .ok t' ∧
      sessionFlow c env =
        .gotToken t' [.loadToken, .refreshCall t0.RefreshToken, .saveCall t'] ∧
      Event.authInteractive ∉ (sessionFlow c env).events := by
  have hr : ∃ t', RefreshAccessToken t0.RefreshToken env.refreshResp = .ok t' := by
    rw [hresp]
    simp only [RefreshAccessToken, hdec]
    by_cases h : td.RefreshToken = "" <;> simp [h]
  obtain ⟨t', ht'⟩ := hr
  have hflow : sessionFlow c env =
      .gotToken t' [.loadToken, .refreshCall t0.RefreshToken, .saveCall t'] := by
    unfold sessionFlow
    rw [hload]
    simp only []
    rw [ht']
  refine ⟨t', ht', hflow, ?_⟩
  rw [hflow]
  simp [FlowOutcome.events]

/-- Witness for the amended C2 at the concrete denial body. -/
theorem refresh_decodable_body_no_fallback_witness :
    ∃ t', RefreshAccessToken storedToken.RefreshToken
        (some (.json denialBody)) = .ok t' ∧
      sessionFlow mainClient
        { tokenFile := some (SaveToken storedToken),
          refreshResp := some (.json denialBody),
          authEnv := { bindOk := true, callbacks := [], exchangeResp := none } } =
        .gotToken t' [.loadToken, .refreshCall storedToken.RefreshToken, .saveCall t'] ∧
      Event.authInteractive ∉
        (sessionFlow mainClient
          { tokenFile := some (SaveToken storedToken),
            refreshResp := some (.json denialBody),
            authEnv := { bindOk := true, callbacks := [], exchangeResp := none }
          }).events :=
  refresh_decodable_body_no_fallback mainClient
    { tokenFile := some (SaveToken storedToken),
      refreshResp := some (.json denialBody),
      authEnv := { bindOk := true, callbacks := [], exchangeResp := none } }
    storedToken denialBody
    { AccessToken := "", RefreshToken := "", ExpiresIn := 0,
      TokenType := "", Scope := "" }
    (by decide) rfl (by decide)

/-- Claim C4: a callback request whose state differs from the stored
anti-forgery state gets a 400 response with nothing sent on the code
channel and no listener shutdown scheduled, and such a request
contributes nothing to resolving the wait. -/
theorem state_mismatch_does_not_resolve (expected : String)
    (r : CallbackRequest) (h : r.state ≠ expected) :
    callbackHandler expected r =
      { status := 400, body := "state mismatch",
        sentCode := none, shutdownScheduled := false } ∧
    ∀ rest, firstResolvedCode expected (r :: rest) =
      firstResolvedCode expected rest := by
  have hh : callbackHandler expected r =
      { status := 400, body := "state mismatch",
        sentCode := none, shutdownScheduled := false } := by
    simp [callbackHandler, h]
  refine ⟨hh, fun rest => ?_⟩
  simp [firstResolvedCode, hh]

/-- Witness for C4 at a concrete mismatching request. -/
theorem state_mismatch_does_not_resolve_witness :
    callbackHandler "some-random-state" { state := "evil", code := "C" } =
      { status := 400, body := "state mismatch",
        sentCode := none, shutdownScheduled := false } ∧
    ∀ rest, firstResolvedCode "some-random-state"
        ({ state := "evil", code := "C" } :: rest) =
      firstResolvedCode "some-random-state" rest :=
  state_mismatch_does_not_resolve "some-random-state"
    { state := "evil", code := "C" } (by decide)

/-- Counterexample to claim C5: with the endpoint returning 500 on every
attempt, SetState sleeps three times, 500 then 1000 then 1500 ms: the
loop body sleeps after the third failed attempt too, before the loop
condition exits, so the backoff trace is not the claimed one that ends
after the second wait. -/
theorem setstate_sleeps_after_final_attempt :
    (Hue.SetState (fun _ => .status 500)).sleeps ≠ [500, 1000] ∧
    Hue.SetState (fun _ => .status 500) =
      { attempts := 3, sleeps := [500, 1000, 1500], ok := false } := by
  exact ⟨by decide, by decide⟩

/-- Claim C5 as amended: when every attempt gets a non-200 status,
SetState performs exactly 3 attempts and returns the last error, with a
backoff wait of attempt times 500 ms after every failed attempt, the
third included, for a total of 3000 ms. -/
theorem setstate_three_attempts_linear_backoff
    (resp : Nat → Hue.AttemptResult)
    (h : ∀ n, ∃ code, resp n = .status code ∧ code ≠ 200) :
    Hue.SetState resp =
      { attempts := 3, sleeps := [500, 1000, 1500], ok := false } := by
  obtain ⟨c1, h1, hc1⟩ := h 1
  obtain ⟨c2, h2, hc2⟩ := h 2
  obtain ⟨c3, h3, hc3⟩ := h 3
  simp [Hue.SetState, Hue.setStateLoop, h1, h2, h3, hc1, hc2, hc3]

/-- Witness for the amended C5 at the all-500 endpoint. -/
theorem setstate_three_attempts_linear_backoff_witness :
    Hue.SetState (fun _ => .status 500) =
      { attempts := 3, sleeps := [500, 1000, 1500], ok := false } :=
  setstate_three_attempts_linear_backoff (fun _ => .status 500)
    (fun _ => ⟨500, rfl, by decide⟩)

/-- Claim C6: when the persisted token loads with a non-empty refresh
token, the trace is load then refresh, with interactive authorization at
most afterwards; when the load fails, the trace is load then interactive
authorization, with no refresh call anywhere. -/
theorem session_refresh_before_auth (c : Client) (env : MainEnv) :
    (∀ t, LoadToken env.tokenFile = .ok t → t.RefreshToken ≠ "" →
      ∃ rest, (sessionFlow c env).events =
        .loadToken :: .refreshCall t.RefreshToken :: rest) ∧
    (∀ e, LoadToken env.tokenFile = .error e →
      (∃ rest, (sessionFlow c env).events =
        .loadToken :: .authInteractive :: rest) ∧
      ∀ rt, Event.refreshCall rt ∉ (sessionFlow c env).events) := by
  constructor
  · intro t hload _
    unfold sessionFlow
    rw [hload]
    simp only []
    cases RefreshAccessToken t.RefreshToken env.refreshResp with
    | ok t' => exact ⟨[.saveCall t'], rfl⟩
    | error e =>
      cases AuthCode c env.authEnv with
      | blocked => exact ⟨[.authInteractive], rfl⟩
      | result r => cases r with
        | ok t' => exact ⟨[.authInteractive, .saveCall t'], rfl⟩
        | error e' => exact ⟨[.authInteractive], rfl⟩
  · intro e hload
    unfold sessionFlow
    rw [hload]
    simp only []
    cases AuthCode c env.authEnv with
    | blocked => exact ⟨⟨[], rfl⟩, by simp [FlowOutcome.events]⟩
    | result r => cases r with
      | ok t' => exact ⟨⟨[.saveCall t'], rfl⟩, by simp [FlowOutcome.events]⟩
      | error e' => exact ⟨⟨[], rfl⟩, by simp [FlowOutcome.events]⟩

/-- Witness for C6: the first part at a stored token with refresh token
R0, the second at an absent token file. -/
theorem session_refresh_before_auth_witness :
    (∃ rest, (sessionFlow mainClient
      { tokenFile := some (SaveToken storedToken),
        refreshResp := none,
        authEnv := { bindOk := true, callbacks := [], exchangeResp := none }
      }).events = .loadToken :: .refreshCall "R0" :: rest) ∧
    (∃ rest, (sessionFlow mainClient
      { tokenFile := none,
        refreshResp := none,
        authEnv := { bindOk := true, callbacks := [], exchangeResp := none }
      }).events = .loadToken :: .authInteractive :: rest) ∧
    ∀ rt, Event.refreshCall rt ∉ (sessionFlow mainClient
      { tokenFile := none,
        refreshResp := none,
        authEnv := { bindOk := true, callbacks := [], exchangeResp := none }
      }).events := by
  refine ⟨?_, ?_, ?_⟩
  · exact (session_refresh_before_auth mainClient
      { tokenFile := some (SaveToken storedToken), refreshResp := none,
        authEnv := { bindOk := true, callbacks := [], exchangeResp := none } }).1
      storedToken (by decide) (by decide)
  · exact ((session_refresh_before_auth mainClient
      { tokenFile := none, refreshResp := none,
        authEnv := { bindOk := true, callbacks := [], exchangeResp := none } }).2
      .notFound rfl).1
  · exact ((session_refresh_before_auth mainClient
      { tokenFile := none, refreshResp := none,
        authEnv := { bindOk := true, callbacks := [], exchangeResp := none } }).2
      .notFound rfl).2

/-- Counterexample to claim C8: the listener bind fails while a valid
callback is queued and the exchange endpoint would answer, yet AuthCode
does not return an error: it blocks forever on the channel receive,
because the serving goroutine returned silently and no handler ever
runs. -/
theorem authcode_bind_failure_blocks_forever :
    AuthCode mainClient
      { bindOk := false,
        callbacks := [{ state := "some-random-state", code := "C" }],
        exchangeResp := some (SaveToken storedToken) } = .blocked := by
  rfl

/-- Claim C8 as amended: when the listener fails to bind, AuthCode never
returns at all: the goroutine swallows the bind error and the flow
blocks forever awaiting a callback that cannot arrive, rather than
failing with an AuthorizationError. -/
theorem authcode_bind_failure_blocks (c : Client) (env : AuthEnv)
    (h : env.bindOk = false) : AuthCode c env = .blocked := by
  simp [AuthCode, h]

/-- Witness for the amended C8. -/
theorem authcode_bind_failure_blocks_witness :
    AuthCode mainClient
      { bindOk := false, callbacks := [], exchangeResp := none } = .blocked :=
  authcode_bind_failure_blocks mainClient
    { bindOk := false, callbacks := [], exchangeResp := none } rfl

/-- Claim C9: when the redirect URI fails to parse, the listener binds
127.0.0.1:8888 and the handler path is /callback; when it parses, the
listener uses exactly the host component with its port and the path
component of the parsed URI. -/
theorem listener_address_selection (parse : String → Option URLParts)
    (uri : String) :
    (parse uri = none → getHostPort parse uri = "127.0.0.1:8888" ∧
      getPath parse uri = "/callback") ∧
    (∀ u, parse uri = some u → getHostPort parse uri = u.host ∧
      getPath parse uri = u.path) := by
  constructor
  · intro h
    constructor <;> simp [getHostPort, getPath, h]
  · intro u h
    constructor <;> simp [getHostPort, getPath, h]

/-- Witness for C9 at an always-failing and an always-succeeding parse
outcome. -/
theorem listener_address_selection_witness :
    (getHostPort (fun _ => none) "::bad::" = "127.0.0.1:8888" ∧
      getPath (fun _ => none) "::bad::" = "/callback") ∧
    (getHostPort (fun _ => some { host := "127.0.0.1:8888", path := "/callback" })
        "http://127.0.0.1:8888/callback" = "127.0.0.1:8888" ∧
      getPath (fun _ => some { host := "127.0.0.1:8888", path := "/callback" })
        "http://127.0.0.1:8888/callback" = "/callback") :=
  ⟨(listener_address_selection (fun _ => none) "::bad::").1 rfl,
   (listener_address_selection
      (fun _ => some { host := "127.0.0.1:8888", path := "/callback" })
      "http://127.0.0.1:8888/callback").2
     { host := "127.0.0.1:8888", path := "/callback" } rfl⟩


/-- The query of the playback phase, computed: some query exactly when
song title or artist is non-empty, the query being title space artist,
or whichever of the two is non-empty. -/
theorem playbackPhase_query_eq (songTitle artist : String)
    (search : String → Except Unit String)
    (play : String → Except Unit Unit) :
    (playbackPhase songTitle artist search play).query =
      (if songTitle ≠ "" ∨ artist ≠ "" then
        some (if songTitle ≠ "" ∧ artist ≠ "" then songTitle ++ " " ++ artist
              else if songTitle ≠ "" then songTitle else artist)
      else none) := by
  unfold playbackPhase
  by_cases hc : songTitle ≠ "" ∨ artist ≠ ""
  · simp only [if_pos hc]
    cases search (if songTitle ≠ "" ∧ artist ≠ "" then songTitle ++ " " ++ artist
        else if songTitle ≠ "" then songTitle else artist) with
    | error e => rfl
    | ok uri =>
      simp only []
      cases play uri with
      | error e => rfl
      | ok u => rfl
  · simp only [if_neg hc]
    rfl

/-- When the playback phase searched with query q and the search
returned the URI, that URI reaches PlayTrack. -/
theorem playbackPhase_plays_found_uri (songTitle artist : String)
    (search : String → Except Unit String)
    (play : String → Except Unit Unit) (q uri : String)
    (hq : (playbackPhase songTitle artist search play).query = some q)
    (hs : search q = .ok uri) :
    (playbackPhase songTitle artist search play).playedURI = some uri := by
  rw [playbackPhase_query_eq] at hq
  by_cases hc : songTitle ≠ "" ∨ artist ≠ ""
  · rw [if_pos hc] at hq
    have hqeq : (if songTitle ≠ "" ∧ artist ≠ "" then songTitle ++ " " ++ artist
        else if songTitle ≠ "" then songTitle else artist) = q :=
      Option.some.inj hq
    unfold playbackPhase
    simp only [if_pos hc]
    rw [hqeq, hs]
    simp only []
    cases play uri with
    | error e => rfl
    | ok u => rfl
  · rw [if_neg hc] at hq
    exact absurd hq (by simp)

/-- Claim C10: the search-and-play branch runs exactly when song title
or artist is non-empty; the query is title, a space, and artist when
both are non-empty, the title alone when only it is non-empty, the
artist alone when only it is; and when the search succeeds the returned
URI is played. -/
theorem playback_condition_and_query (songTitle artist : String)
    (search : String → Except Unit String)
    (play : String → Except Unit Unit) :
    ((playbackPhase songTitle artist search play).query.isSome ↔
      (songTitle ≠ "" ∨ artist ≠ "")) ∧
    (songTitle ≠ "" → artist ≠ "" →
      (playbackPhase songTitle artist search play).query =
        some (songTitle ++ " " ++ artist)) ∧
    (songTitle ≠ "" → artist = "" →
      (playbackPhase songTitle artist search play).query = some songTitle) ∧
    (songTitle = "" → artist ≠ "" →
      (playbackPhase songTitle artist search play).query = some artist) ∧
    (∀ q uri, (playbackPhase songTitle artist search play).query = some q →
      search q = .ok uri →
      (playbackPhase songTitle artist search play).playedURI = some uri) := by
  refine ⟨?_, ?_, ?_, ?_, ?_⟩
  · rw [playbackPhase_query_eq]
    by_cases hc : songTitle ≠ "" ∨ artist ≠ "" <;> simp [hc]
  · intro hT hA
    rw [playbackPhase_query_eq]
    simp [hT, hA]
  · intro hT hA
    rw [playbackPhase_query_eq]
    simp [hT, hA]
  · intro hT hA
    rw [playbackPhase_query_eq]
    simp [hT, hA]
  · intro q uri hq hs
    exact playbackPhase_plays_found_uri songTitle artist search play q uri hq hs

/-- Witness for C10 at the spec scenario: title Imagine, artist John
Lennon, a search that finds a URI, a play that succeeds. -/
theorem playback_condition_and_query_witness :
    (playbackPhase "Imagine" "John Lennon"
      (fun _ => .ok "spotify:track:T") (fun _ => .ok ())).query =
      some "Imagine John Lennon" ∧
    (playbackPhase "Imagine" "John Lennon"
      (fun _ => .ok "spotify:track:T") (fun _ => .ok ())).playedURI =
      some "spotify:track:T" := by
  have h := playback_condition_and_query "Imagine" "John Lennon"
    (fun _ => .ok "spotify:track:T") (fun _ => .ok ())
  have hq := h.2.1 (by decide) (by decide)
  exact ⟨hq, h.2.2.2.2 "Imagine John Lennon" "spotify:track:T" hq rfl⟩
